import Mathlib

/-!
Shallow embedding of `src/main.py`, a Flask blog application, together with
theorems settling the frozen claims about its specification.

The embedding translates the route handlers of `main.py` into pure Lean
functions over an explicit database state.  Library behaviour the handlers
rely on (werkzeug password hashing, SQLAlchemy commit semantics, the Flask
routing table defaults) is modelled at the interface level, as documented on
each definition.
-/

namespace Blog

/-- Row of the `users` table (`class User`, main.py lines 56-66):
integer primary key, unique email, stored password hash, display name. -/
structure User where
  id : Nat
  email : String
  password : String
  name : String
deriving DecidableEq, Repr

/-- Row of the `blog_posts` table (`class BlogPost`, main.py lines 70-83).
`author_id` is the nullable foreign key to `users.id`; the `author`
relationship is a view of the same link, so it is represented once. -/
structure BlogPost where
  id : Nat
  author_id : Option Nat
  title : String
  subtitle : String
  date : String
  body : String
  img_url : String
deriving DecidableEq, Repr

/-- Row of the `comments` table (`class Comment`, main.py lines 87-96).
`post_id` and `author_id` are nullable foreign keys; `text` is NOT NULL,
so a row only ever holds an actual string. -/
structure Comment where
  id : Nat
  post_id : Option Nat
  author_id : Option Nat
  text : String
deriving DecidableEq, Repr

/-- The relational store `blog.db`: the three tables plus the autoincrement
counters SQLite keeps for their integer primary keys (starting at 1). -/
structure DB where
  users : List User
  posts : List BlogPost
  comments : List Comment
  nextUserId : Nat
  nextPostId : Nat
  nextCommentId : Nat
deriving DecidableEq, Repr

/-- The freshly created database after `db.create_all()` (main.py line 102). -/
def emptyDB : DB :=
  { users := [], posts := [], comments := [],
    nextUserId := 1, nextPostId := 1, nextCommentId := 1 }

/-- What a handler hands back to Flask: a rendered template or a redirect to
a named endpoint (`url_for`), either carrying the flashed messages of the
request. -/
inductive Response where
  | render (template : String) (flashes : List String)
  | redirect (endpoint : String) (arg : Option Nat) (flashes : List String)
deriving DecidableEq, Repr

/-- Outcome of one dispatched request: a normal page together with the
database state after the handler, or an unhandled Python exception, in which
case nothing was committed and the database is unchanged. -/
inductive RouteResult where
  | page (r : Response) (db : DB)
  | failure (exc : String) (db : DB)
deriving DecidableEq, Repr

/-! ### Model of werkzeug password hashing

`main.py` calls `generate_password_hash(pw, method="pbkdf2:sha256",
salt_length=8)` and `check_password_hash(pwhash, password)`.  werkzeug
produces the string `"pbkdf2:sha256$<salt>$<derived key>"` from a random
dollar-free salt, and checking splits the stored string on `$` and
recomputes the derived key from the parsed salt and the candidate password.
The derived key is modelled as an injective, dollar-free encoding of
`salt|password` (an idealisation of PBKDF2 as collision-free); the random
salt becomes an explicit argument. -/

/-- Dollar-free injective encoding of one character: a unary run of `x`
terminated by a dot. -/
def encChar (c : Char) : List Char :=
  List.replicate c.toNat 'x' ++ ['.']

/-- Dollar-free injective encoding of a character list. -/
def encList (l : List Char) : List Char :=
  l.flatMap encChar

/-- Model of the PBKDF2 derived key for a given salt and password. -/
def derivedKey (salt password : String) : String :=
  ⟨encList (salt.data ++ '|' :: password.data)⟩

/-- Model of `werkzeug.security.generate_password_hash` with
`method="pbkdf2:sha256"`: the stored value is `method$salt$derivedkey`. -/
def generate_password_hash (salt password : String) : String :=
  ⟨"pbkdf2:sha256".data ++ '$' :: salt.data ++ '$' :: (derivedKey salt password).data⟩

/-- Split a character list at its first `$`. -/
def splitDollar : List Char → Option (List Char × List Char)
  | [] => none
  | c :: t =>
    if c = '$' then some ([], t)
    else
      match splitDollar t with
      | none => none
      | some (a, b) => some (c :: a, b)

/-- Model of `werkzeug.security.check_password_hash`: parse
`method$salt$hash` out of the stored value and recompute the derived key
from the parsed salt and the candidate password. -/
def check_password_hash (pwhash password : String) : Bool :=
  match splitDollar pwhash.data with
  | none => false
  | some (method, rest) =>
    match splitDollar rest with
    | none => false
    | some (salt, hashval) =>
      method == "pbkdf2:sha256".data
        && hashval == encList (salt ++ '|' :: password.data)

/-! ### Route handlers

Each handler becomes a pure function of the database, the current session
(the logged-in user's id, `none` when anonymous) and the request's form
data.  A WTForms `validate_on_submit()` only returns true on a POST that
passes validation, so "no validated submission" (a GET, or an invalid POST)
is modelled as `none` for the form argument. -/

/-- Validated data of `RegisterForm` (fields per the registration handler). -/
structure RegisterForm where
  email : String
  name : String
  password : String
deriving DecidableEq, Repr

/-- Validated data of `LoginForm`. -/
structure LoginForm where
  email : String
  password : String
deriving DecidableEq, Repr

/-- `register` (main.py lines 127-164): on a validated submission, redirect
to login when the email is already taken, otherwise hash the password,
insert the new user, log them in and redirect home.  The random salt drawn
by werkzeug is an explicit argument. -/
def register (db : DB) (sess : Option Nat) (salt : String)
    (form : Option RegisterForm) : Response × DB × Option Nat :=
  match form with
  | none => (.render "register.html" [], db, sess)
  | some f =>
    if (db.users.find? (fun u => u.email == f.email)).isSome then
      (.redirect "login" none
        ["You've already signed up with that email, log in instead."],
       db, sess)
    else
      let hash_salted_pw := generate_password_hash salt f.password
      let new_user : User :=
        { id := db.nextUserId, email := f.email, name := f.name,
          password := hash_salted_pw }
      let db' := { db with users := db.users ++ [new_user],
                           nextUserId := db.nextUserId + 1 }
      (.redirect "get_all_posts" none [], db', some new_user.id)

/-- `login` (main.py lines 168-192), translated with the indentation the
source actually has: when the submitted password does NOT verify against
the stored hash, the handler flashes "Password incorrect", calls
`login_user(user)` and redirects home (lines 185-190 are one branch); when
it does verify, control falls through to re-render the login page without
logging in.  Returns the response and the session after the request. -/
def login (db : DB) (sess : Option Nat) (form : Option LoginForm) :
    Response × Option Nat :=
  match form with
  | none => (.render "login.html" [], sess)
  | some f =>
    match db.users.find? (fun u => u.email == f.email) with
    | none =>
      (.redirect "login" none ["That email does not exist, please try again."],
       sess)
    | some user =>
      if ¬ check_password_hash user.password f.password then
        (.redirect "get_all_posts" none
          ["Password incorrect, please try again."],
         some user.id)
      else
        (.render "login.html" [], sess)

/-- `admin_only` guard outcome (main.py lines 106-114): `abort(403)`, an
unhandled Python exception, or the wrapped handler's result. -/
inductive GuardResult where
  | forbidden (db : DB)
  | failure (exc : String) (db : DB)
  | handled (r : RouteResult)
deriving DecidableEq, Repr

/-- `admin_only` (main.py lines 106-114): evaluates `current_user.id != 1`.
A logged-in user with id other than 1 gets `abort(403)`; id 1 runs the
wrapped handler.  Anonymous requests have `current_user` bound to
Flask-Login's `AnonymousUserMixin`, which has no `id` attribute, so the
comparison itself raises `AttributeError` before any 403 can be produced. -/
def admin_only (f : DB → RouteResult) (current_user : Option Nat) (db : DB) :
    GuardResult :=
  match current_user with
  | none => .failure "AttributeError: AnonymousUserMixin has no attribute id" db
  | some uid =>
    if uid ≠ 1 then .forbidden db
    else .handled (f db)

/-- Does a guard outcome carry the HTTP 403 response? -/
def is403 : GuardResult → Bool
  | .forbidden _ => true
  | _ => false

/-- `show_post` (main.py lines 204-226).  On a validated comment submission
the handler always flashes "login or register" and redirects to login —
for every visitor, authenticated or not — creating nothing.  Otherwise it
unconditionally builds a `Comment` from the (empty) form data and commits:
on a plain GET `comment_text.data` is `None`, so the NOT NULL column
rejects the row, and for an anonymous visitor `comment_author` is the
unmapped `AnonymousUserMixin`; either way the commit raises and nothing is
persisted. -/
def show_post (db : DB) (sess : Option Nat) (formValidates : Bool)
    (commentText : Option String) (post_id : Nat) : RouteResult :=
  let requested_post := db.posts.find? (fun p => p.id == post_id)
  if formValidates then
    .page (.redirect "login" none ["You need to login or register to comment."]) db
  else
    match sess, commentText with
    | none, _ =>
      .failure "flush error: AnonymousUserMixin is not a mapped User" db
    | some _, none =>
      .failure "IntegrityError: NOT NULL constraint failed: comments.text" db
    | some uid, some t =>
      let new_comment : Comment :=
        { id := db.nextCommentId,
          post_id := requested_post.map (fun p => p.id),
          author_id := some uid, text := t }
      .page (.render "post.html" [])
        { db with comments := db.comments ++ [new_comment],
                  nextCommentId := db.nextCommentId + 1 }

/-- Modelled from the spec: `CreatePostForm` lives in `forms.py`, which is
not part of the sources; §4.3 lists its fields as title, subtitle, image
URL, author and body, with the author field carrying the post's author
reference. -/
structure CreatePostForm where
  title : String
  subtitle : String
  img_url : String
  author : Option Nat
  body : String
deriving DecidableEq, Repr

/-- `edit_post` (main.py lines 272-298): load the post (a missing id makes
`post.title` raise on `None`), pre-fill the form on a plain GET, and on a
validated submission overwrite title, subtitle, image URL, author and body
in place — the id and date columns are never assigned — then commit and
redirect to the post's own page. -/
def edit_post (db : DB) (form : Option CreatePostForm) (post_id : Nat) :
    RouteResult :=
  match db.posts.find? (fun p => p.id == post_id) with
  | none => .failure "AttributeError: None has no attribute title" db
  | some post =>
    match form with
    | none => .page (.render "make-post.html" []) db
    | some f =>
      .page (.redirect "show_post" (some post.id) [])
        { db with posts := db.posts.map (fun p =>
            if p.id == post_id then
              { p with title := f.title, subtitle := f.subtitle,
                       img_url := f.img_url, author_id := f.author,
                       body := f.body }
            else p) }

/-- `delete_post` (main.py lines 302-313): `BlogPost.query.get` on a
missing id yields `None` and `db.session.delete(None)` raises; on an
existing post the row is deleted and, the relationship to `Comment` having
no delete cascade configured, SQLAlchemy's default handling nulls out the
`post_id` of every comment of the deleted post at flush time. -/
def delete_post (db : DB) (post_id : Nat) : RouteResult :=
  match db.posts.find? (fun p => p.id == post_id) with
  | none => .failure "UnmappedInstanceError: None is not mapped" db
  | some _ =>
    .page (.redirect "get_all_posts" none [])
      { db with
        posts := db.posts.filter (fun p => !(p.id == post_id)),
        comments := db.comments.map (fun c =>
          if c.post_id == some post_id then { c with post_id := none } else c) }

/-- The routing table of `main.py`, exactly as registered: each
`@app.route` call with its `methods` argument, Flask's default being
`["GET"]` when the argument is absent.  `/post/<int:post_id>` (line 204),
`/edit-post/<int:post_id>` (line 272) and `/delete/<int:post_id>`
(line 302) pass no `methods`. -/
def routes : List (String × List String) :=
  [ ("/", ["GET"]),
    ("/register", ["GET", "POST"]),
    ("/login", ["GET", "POST"]),
    ("/logout", ["GET"]),
    ("/post/<int:post_id>", ["GET"]),
    ("/about", ["GET"]),
    ("/contact", ["GET"]),
    ("/new-post", ["GET", "POST"]),
    ("/edit-post/<int:post_id>", ["GET"]),
    ("/delete/<int:post_id>", ["GET"]) ]

/-! ### Concrete fixtures and invariants -/

/-- A registered user whose stored password is the hash of `"#"` under
salt `"!"`. -/
def user1 : User :=
  { id := 1, email := "e", name := "n",
    password := generate_password_hash "!" "#" }

/-- Database holding exactly `user1`. -/
def loginDB : DB := { emptyDB with users := [user1], nextUserId := 2 }

/-- A published post with id 1. -/
def post1 : BlogPost :=
  { id := 1, author_id := some 1, title := "First", subtitle := "Sub",
    date := "January 01, 2024", body := "Body", img_url := "http://img" }

/-- Database holding exactly `post1`. -/
def postDB : DB := { emptyDB with posts := [post1], nextPostId := 2 }

/-- A comment attached to `post1`. -/
def comment1 : Comment :=
  { id := 1, post_id := some 1, author_id := some 2, text := "hi" }

/-- Database holding `post1` together with its comment `comment1`. -/
def postCommentDB : DB :=
  { emptyDB with
      posts := [post1], comments := [comment1],
      nextPostId := 2, nextCommentId := 2 }

/-- A validated edit-form submission. -/
def editForm : CreatePostForm :=
  { title := "New", subtitle := "NewSub", img_url := "http://img2",
    author := some 1, body := "NewBody" }

/-- Well-formedness of the `users` table: every id is below the
autoincrement counter and ids are pairwise distinct. -/
def UserIdsOK (db : DB) : Prop :=
  (∀ u ∈ db.users, u.id < db.nextUserId) ∧
  db.users.Pairwise (fun u v => u.id ≠ v.id)

/-! ### Lemmas about the password-hash model -/

theorem encList_cons (c : Char) (t : List Char) :
    encList (c :: t) = List.replicate c.toNat 'x' ++ '.' :: encList t := by
  simp [encList, encChar, List.flatMap_cons, List.append_assoc]

theorem splitDollar_append (l1 l2 : List Char) (h : '$' ∉ l1) :
    splitDollar (l1 ++ '$' :: l2) = some (l1, l2) := by
  induction l1 with
  | nil => simp [splitDollar]
  | cons c t ih =>
    have hc : c ≠ '$' := fun hc => h (hc ▸ List.mem_cons_self c t)
    have ht : '$' ∉ t := fun hm => h (List.mem_cons_of_mem c hm)
    simp [splitDollar, hc, ih ht]

theorem rep_dot_inj : ∀ (n m : Nat) (t1 t2 : List Char),
    List.replicate n 'x' ++ '.' :: t1 = List.replicate m 'x' ++ '.' :: t2 →
    n = m ∧ t1 = t2 := by
  intro n
  induction n with
  | zero =>
    intro m t1 t2 h
    cases m with
    | zero => simpa using h
    | succ m =>
      rw [List.replicate_succ] at h
      simp only [List.replicate, List.nil_append, List.cons_append,
        List.cons.injEq] at h
      exact absurd h.1 (by decide)
  | succ n ih =>
    intro m t1 t2 h
    cases m with
    | zero =>
      rw [List.replicate_succ] at h
      simp only [List.replicate, List.nil_append, List.cons_append,
        List.cons.injEq] at h
      exact absurd h.1 (by decide)
    | succ m =>
      rw [List.replicate_succ, List.replicate_succ] at h
      simp only [List.cons_append, List.cons.injEq] at h
      obtain ⟨h3, h4⟩ := ih m t1 t2 h.2
      exact ⟨by omega, h4⟩

theorem encList_inj : ∀ (l1 l2 : List Char), encList l1 = encList l2 → l1 = l2 := by
  intro l1
  induction l1 with
  | nil =>
    intro l2 h
    cases l2 with
    | nil => rfl
    | cons d s =>
      rw [encList_cons] at h
      have hl := congrArg List.length h
      simp [encList] at hl
      omega
  | cons c t ih =>
    intro l2 h
    cases l2 with
    | nil =>
      rw [encList_cons] at h
      have hl := congrArg List.length h
      simp [encList] at hl
    | cons d s =>
      rw [encList_cons, encList_cons] at h
      obtain ⟨hn, ht⟩ := rep_dot_inj _ _ _ _ h
      have hc : c = d := Char.eq_of_val_eq (UInt32.toNat.inj hn)
      rw [hc, ih s ht]

/-- Verifying the stored hash against the original password succeeds. -/
theorem check_generate_self (salt pw : String) (h : '$' ∉ salt.data) :
    check_password_hash (generate_password_hash salt pw) pw = true := by
  unfold check_password_hash generate_password_hash
  have hd : (String.mk ("pbkdf2:sha256".data ++ '$' :: salt.data ++ '$' ::
      (derivedKey salt pw).data)).data =
      "pbkdf2:sha256".data ++ '$' :: (salt.data ++ '$' ::
      (derivedKey salt pw).data) := rfl
  rw [hd, splitDollar_append _ _ (by decide)]
  simp [splitDollar_append _ _ h, derivedKey]

/-- Verifying the stored hash against any other string fails. -/
theorem check_generate_other (salt pw q : String) (h : '$' ∉ salt.data)
    (hne : pw ≠ q) :
    check_password_hash (generate_password_hash salt pw) q = false := by
  unfold check_password_hash generate_password_hash
  have hd : (String.mk ("pbkdf2:sha256".data ++ '$' :: salt.data ++ '$' ::
      (derivedKey salt pw).data)).data =
      "pbkdf2:sha256".data ++ '$' :: (salt.data ++ '$' ::
      (derivedKey salt pw).data) := rfl
  rw [hd, splitDollar_append _ _ (by decide)]
  have hfalse : ((derivedKey salt pw).data ==
      encList (salt.data ++ '|' :: q.data)) = false := by
    apply beq_eq_false_iff_ne.2
    intro heq
    have h1 := encList_inj _ _ heq
    have h2 := List.append_cancel_left h1
    simp only [List.cons.injEq] at h2
    exact hne (String.ext h2.2)
  simp [splitDollar_append _ _ h, derivedKey] at hfalse ⊢
  intro hx
  exact hfalse hx

theorem length_le_encList (l : List Char) : l.length ≤ (encList l).length := by
  induction l with
  | nil => simp [encList]
  | cons c t ih =>
    rw [encList_cons]
    simp only [List.length_append, List.length_cons, List.length_replicate]
    omega

/-- The stored value is strictly longer than the plaintext, hence differs
from it. -/
theorem generate_ne_plaintext (salt pw : String) :
    generate_password_hash salt pw ≠ pw := by
  intro h
  have hl := congrArg (fun s => s.data.length) h
  simp only [generate_password_hash, derivedKey, List.length_append,
    List.length_cons] at hl
  have h13 : "pbkdf2:sha256".data.length = 13 := rfl
  have hle := length_le_encList (salt.data ++ '|' :: pw.data)
  simp only [List.length_append, List.length_cons] at hle
  omega

/-! ### Claim theorems -/

/-- Claim C1 (code bug, evaluated at the failing input): against a database
holding a user with email `"e"` whose stored hash verifies password `"#"`,
submitting the WRONG password `"%"` makes `login` flash "Password
incorrect", establish a session for that user and redirect home, while
submitting the CORRECT password `"#"` re-renders the login page and
establishes no session — the reverse of the specified behaviour, caused by
the indentation of main.py lines 185-190. -/
theorem login_branches_swapped :
    login loginDB none (some { email := "e", password := "%" }) =
      (.redirect "get_all_posts" none ["Password incorrect, please try again."],
       some 1) ∧
    login loginDB none (some { email := "e", password := "#" }) =
      (.render "login.html" [], none) := by
  constructor <;> rfl

/-- Claim C2 counterexample: an anonymous request to an admin-guarded route
is not answered with HTTP 403 — `current_user.id` raises `AttributeError`
on the anonymous user, so the request fails with an unhandled error. -/
theorem admin_only_anonymous_not_403 :
    is403 (admin_only (fun db => .page (.render "make-post.html" []) db)
      none emptyDB) = false ∧
    admin_only (fun db => .page (.render "make-post.html" []) db) none emptyDB
      = .failure "AttributeError: AnonymousUserMixin has no attribute id"
          emptyDB := by
  constructor <;> rfl

/-- Claim C2 (amended): a request with an authenticated session identity
other than 1 receives HTTP 403, the wrapped handler is not invoked and the
database is unchanged; an anonymous request instead raises an unhandled
`AttributeError`, likewise without invoking the handler or touching the
database. -/
theorem admin_only_guard (f : DB → RouteResult) (db : DB) (uid : Nat)
    (h : uid ≠ 1) :
    admin_only f (some uid) db = .forbidden db ∧
    admin_only f none db =
      .failure "AttributeError: AnonymousUserMixin has no attribute id" db := by
  constructor
  · simp [admin_only, h]
  · rfl

/-- Witness for C2's amended theorem at user id 2 on the empty database. -/
theorem admin_only_guard_witness :
    admin_only (fun db => .page (.render "make-post.html" []) db)
      (some 2) emptyDB = .forbidden emptyDB ∧
    admin_only (fun db => .page (.render "make-post.html" []) db)
      none emptyDB =
      .failure "AttributeError: AnonymousUserMixin has no attribute id"
        emptyDB :=
  admin_only_guard (fun db => .page (.render "make-post.html" []) db)
    emptyDB 2 (by decide)

/-- Claim C3 (code bug, evaluated at the failing input): when an
authenticated user (id 2) submits a validated comment "Nice" on post 1,
`show_post` flashes "login or register to comment" and redirects to the
login page with the database unchanged — zero Comments are created for an
authenticated submitter, contradicting "exactly one Comment is created"
(and the route does not even accept POST, see `routes`). -/
theorem authenticated_comment_not_created :
    show_post postDB (some 2) true (some "Nice") 1 =
      .page (.redirect "login" none
        ["You need to login or register to comment."]) postDB := by
  rfl

/-- Claim C4 (code bug, evaluated at the failing input): a plain GET of
`/post/1` with no comment submitted does not render the post — the handler
unconditionally builds a Comment from the empty form and the commit raises
(unmapped anonymous author, or NULL in the NOT NULL `text` column for a
logged-in viewer), so the request fails instead of rendering. -/
theorem get_post_attempts_comment_insert :
    show_post postDB none false none 1 =
      .failure "flush error: AnonymousUserMixin is not a mapped User"
        postDB ∧
    show_post postDB (some 2) false none 1 =
      .failure "IntegrityError: NOT NULL constraint failed: comments.text"
        postDB := by
  constructor <;> rfl

/-- Claim C5: a valid edit submission for an existing post leaves the
post's identity and creation date unchanged, sets title, subtitle, image
URL, body and author to the submitted values, and redirects to the post's
own page. -/
theorem edit_post_updates_fields (db : DB) (post_id : Nat)
    (f : CreatePostForm) (post : BlogPost)
    (h : db.posts.find? (fun p => p.id == post_id) = some post) :
    ∃ db', edit_post db (some f) post_id =
        .page (.redirect "show_post" (some post.id) []) db' ∧
      db'.posts.find? (fun p => p.id == post_id) =
        some { id := post.id, author_id := f.author, title := f.title,
               subtitle := f.subtitle, date := post.date, body := f.body,
               img_url := f.img_url } := by
  unfold edit_post
  rw [h]
  refine ⟨_, rfl, ?_⟩
  have hpred : ((fun p : BlogPost => p.id == post_id) ∘ (fun p =>
      if p.id == post_id then
        { p with title := f.title, subtitle := f.subtitle,
                 img_url := f.img_url, author_id := f.author,
                 body := f.body }
      else p)) = (fun p : BlogPost => p.id == post_id) := by
    funext p
    by_cases hp : p.id = post_id <;> simp [hp]
  rw [List.find?_map, hpred, h]
  have hpost : post.id = post_id := by simpa using List.find?_some h
  simp [hpost]

/-- Witness for C5 on the concrete database `postDB` and form `editForm`. -/
theorem edit_post_updates_fields_witness :
    ∃ db', edit_post postDB (some editForm) 1 =
        .page (.redirect "show_post" (some post1.id) []) db' ∧
      db'.posts.find? (fun p => p.id == 1) =
        some { id := post1.id, author_id := editForm.author,
               title := editForm.title, subtitle := editForm.subtitle,
               date := post1.date, body := editForm.body,
               img_url := editForm.img_url } :=
  edit_post_updates_fields postDB 1 editForm post1 (by rfl)

/-- Claim C6 (code bug, evaluated at the failing input): the routing table
registers `/post/<int:post_id>` and `/edit-post/<int:post_id>` with only
the GET method (no `methods` argument in `@app.route`), so a POST to
either route is rejected with 405 instead of being dispatched. -/
theorem post_and_edit_routes_reject_post_method :
    routes.find? (fun r => r.1 == "/post/<int:post_id>") =
      some ("/post/<int:post_id>", ["GET"]) ∧
    routes.find? (fun r => r.1 == "/edit-post/<int:post_id>") =
      some ("/edit-post/<int:post_id>", ["GET"]) ∧
    "POST" ∉ (["GET"] : List String) := by
  refine ⟨by rfl, by rfl, by decide⟩

/-- Claim C7: a valid registration creates exactly one user whose id is
fresh (so distinct registrations yield distinct identities, and the id
invariant is preserved), whose stored password differs from the submitted
plaintext, and whose stored hash verifies the original plaintext and
rejects every other string. -/
theorem register_properties (db : DB) (sess : Option Nat) (salt : String)
    (f : RegisterForm)
    (hsalt : '$' ∉ salt.data)
    (hids : UserIdsOK db)
    (hnew : db.users.find? (fun u => u.email == f.email) = none) :
    ∃ u : User,
      (register db sess salt (some f)).2.1.users = db.users ++ [u] ∧
      u.id = db.nextUserId ∧
      UserIdsOK (register db sess salt (some f)).2.1 ∧
      u.password ≠ f.password ∧
      check_password_hash u.password f.password = true ∧
      ∀ q : String, q ≠ f.password →
        check_password_hash u.password q = false := by
  have hreg : (register db sess salt (some f)).2.1 =
      { db with
          users := db.users ++
            [{ id := db.nextUserId, email := f.email, name := f.name,
               password := generate_password_hash salt f.password }],
          nextUserId := db.nextUserId + 1 } := by
    simp [register, hnew]
  refine ⟨{ id := db.nextUserId, email := f.email, name := f.name,
            password := generate_password_hash salt f.password },
          ?_, rfl, ?_, generate_ne_plaintext salt f.password,
          check_generate_self salt f.password hsalt,
          fun q hq => check_generate_other salt f.password q hsalt hq.symm⟩
  · rw [hreg]
  · rw [hreg]
    obtain ⟨hlt, hpw⟩ := hids
    constructor
    · intro u hu
      simp only [] at hu
      rcases List.mem_append.1 hu with h1 | h2
      · exact Nat.lt_succ_of_lt (hlt u h1)
      · have h3 := List.mem_singleton.1 h2
        rw [h3]
        exact Nat.lt_succ_self _
    · refine List.pairwise_append.2 ⟨hpw, List.pairwise_singleton _ _, ?_⟩
      intro a ha b hb
      have hb2 := List.mem_singleton.1 hb
      rw [hb2]
      have hlt2 := hlt a ha
      have hne : a.id ≠ db.nextUserId := Nat.ne_of_lt hlt2
      simpa using hne

/-- Witness for C7: registering email `"e"`, name `"n"`, password `"#"`
with salt `"!"` on the empty database. -/
theorem register_properties_witness :
    ∃ u : User,
      (register emptyDB none "!"
        (some { email := "e", name := "n", password := "#" })).2.1.users =
        emptyDB.users ++ [u] ∧
      u.id = emptyDB.nextUserId ∧
      UserIdsOK (register emptyDB none "!"
        (some { email := "e", name := "n", password := "#" })).2.1 ∧
      u.password ≠ "#" ∧
      check_password_hash u.password "#" = true ∧
      ∀ q : String, q ≠ "#" → check_password_hash u.password q = false :=
  register_properties emptyDB none "!" { email := "e", name := "n", password := "#" }
    (by decide) ⟨by simp [emptyDB], by simp [emptyDB]⟩ (by rfl)

/-- Claim C8: a validated registration whose email already belongs to an
existing user flashes the "already signed up" notice, redirects to login,
and leaves both the database and the session unchanged. -/
theorem register_duplicate_email (db : DB) (sess : Option Nat)
    (salt : String) (f : RegisterForm) (u : User)
    (h : db.users.find? (fun v => v.email == f.email) = some u) :
    register db sess salt (some f) =
      (.redirect "login" none
        ["You've already signed up with that email, log in instead."],
       db, sess) := by
  simp [register, h]

/-- Witness for C8: re-registering `user1`'s email `"e"` on `loginDB`. -/
theorem register_duplicate_email_witness :
    register loginDB none "!"
      (some { email := "e", name := "n2", password := "%" }) =
      (.redirect "login" none
        ["You've already signed up with that email, log in instead."],
       loginDB, none) :=
  register_duplicate_email loginDB none "!"
    { email := "e", name := "n2", password := "%" } user1 (by rfl)

/-- Claim C9: an admin delete of a post id that matches no row makes the
handler raise (it passes `None` to `db.session.delete`); no redirect is
returned and the database — in particular its set of rows — is unchanged. -/
theorem delete_missing_post_raises (db : DB) (post_id : Nat)
    (h : db.posts.find? (fun p => p.id == post_id) = none) :
    delete_post db post_id =
      .failure "UnmappedInstanceError: None is not mapped" db := by
  simp [delete_post, h]

/-- Witness for C9: deleting post 1 from the empty database. -/
theorem delete_missing_post_raises_witness :
    delete_post emptyDB 1 =
      .failure "UnmappedInstanceError: None is not mapped" emptyDB :=
  delete_missing_post_raises emptyDB 1 (by rfl)

/-- Claim C10: deleting an existing post redirects to the listing and does
not delete its comments — every comment row that referenced the deleted
post still exists afterwards, with its post reference cleared to NULL, and
the comment count is unchanged. -/
theorem delete_post_orphans_comments (db : DB) (post_id : Nat)
    (post : BlogPost)
    (h : db.posts.find? (fun p => p.id == post_id) = some post) :
    ∃ db', delete_post db post_id =
        .page (.redirect "get_all_posts" none []) db' ∧
      db'.comments.length = db.comments.length ∧
      ∀ c ∈ db.comments, c.post_id = some post_id →
        { c with post_id := none } ∈ db'.comments := by
  unfold delete_post
  rw [h]
  refine ⟨_, rfl, by simp, ?_⟩
  intro c hc hrefs
  have hmap : ({ c with post_id := none } : Comment) =
      (fun c : Comment => if c.post_id == some post_id then
        { c with post_id := none } else c) c := by
    simp [hrefs]
  rw [hmap]
  exact List.mem_map_of_mem _ hc

/-- Witness for C10: deleting post 1 from the database holding `post1`
and its comment `comment1`. -/
theorem delete_post_orphans_comments_witness :
    ∃ db', delete_post postCommentDB 1 =
        .page (.redirect "get_all_posts" none []) db' ∧
      db'.comments.length = postCommentDB.comments.length ∧
      ∀ c ∈ postCommentDB.comments, c.post_id = some 1 →
        { c with post_id := none } ∈ db'.comments :=
  delete_post_orphans_comments postCommentDB 1 post1 (by rfl)

end Blog
